import Mathlib

/-!
Verification development for the AI worker productivity dashboard backend.

The definitions below are a shallow embedding of the event-ingestion and
metrics-computation core (`src/backend/app`): the SQLAlchemy-backed store
becomes explicit lists with a pending/committed split mirroring the
flush/rollback/commit transaction behaviour, instants become integers,
and Python float arithmetic becomes exact rational arithmetic with an
explicit 2-decimal rounding function at the output boundary.
-/

namespace Dashboard

/-- The closed event-type enumeration (`schemas.EventCreate.validate_event_type`). -/
inductive EventType
  | working
  | idle
  | absent
  | product_count
deriving DecidableEq, BEq

/-- A row of the `workers` table (`models.Worker`), identity fields only. -/
structure Worker where
  worker_id : String
  name : String
deriving DecidableEq

/-- A row of the `workstations` table (`models.Workstation`). -/
structure Workstation where
  station_id : String
  name : String
  station_type : Option String
deriving DecidableEq

/-- A row of the `events` table (`models.Event`). Instants are modelled as
integers; `count` is stored as a non-negative integer (the gate always
writes `event.count or 0`). -/
structure StoredEvent where
  timestamp : Int
  worker_id : String
  workstation_id : String
  event_type : EventType
  confidence : ℚ
  count : Nat
  received_at : Int
deriving DecidableEq

/-- The ingestion request body (`schemas.EventCreate`); `count` is optional
with Python `None` modelled as `none`. -/
structure EventCreate where
  timestamp : Int
  worker_id : String
  workstation_id : String
  event_type : EventType
  confidence : ℚ
  count : Option Nat
deriving DecidableEq

/-- Database state: reference tables plus committed event rows. -/
structure Db where
  workers : List Worker
  workstations : List Workstation
  committed : List StoredEvent
deriving DecidableEq

/-- The deduplication key comparison backing the unique constraint
`uq_event_dedup` on `(timestamp, worker_id, workstation_id, event_type)`. -/
def sameKey (a b : StoredEvent) : Bool :=
  a.timestamp == b.timestamp && a.worker_id == b.worker_id &&
    a.workstation_id == b.workstation_id && a.event_type == b.event_type

/-- The `Event(...)` constructor call shared verbatim by `ingest_event` and
`ingest_events_batch`: `count=event.count or 0`, `received_at=datetime.utcnow()`. -/
def mkStoredEvent (ev : EventCreate) (now : Int) : StoredEvent :=
  { timestamp := ev.timestamp
    worker_id := ev.worker_id
    workstation_id := ev.workstation_id
    event_type := ev.event_type
    confidence := ev.confidence
    count := ev.count.getD 0
    received_at := now }

/-- Failure outcomes of single-event ingestion (HTTP 400 / 409). -/
inductive IngestError
  | referenceNotFound (detail : String)
  | duplicateEvent
deriving DecidableEq

/-- `routes/events.py ingest_event`: validate both references, insert, and
surface a uniqueness-constraint conflict as `duplicateEvent` (HTTP 409).
On success returns the updated store and the stored row. -/
def ingest_event (db : Db) (ev : EventCreate) (now : Int) :
    Except IngestError (Db × StoredEvent) :=
  if (db.workers.find? (fun w => w.worker_id == ev.worker_id)).isNone then
    Except.error (IngestError.referenceNotFound ("Worker " ++ ev.worker_id ++ " not found"))
  else if (db.workstations.find? (fun s => s.station_id == ev.workstation_id)).isNone then
    Except.error (IngestError.referenceNotFound ("Workstation " ++ ev.workstation_id ++ " not found"))
  else
    let row := mkStoredEvent ev now
    if db.committed.any (fun r => sameKey r row) then
      Except.error IngestError.duplicateEvent
    else
      Except.ok ({ db with committed := db.committed ++ [row] }, row)

/-- `schemas.EventIngestionResult`. -/
structure EventIngestionResult where
  total_received : Nat
  successfully_stored : Nat
  duplicates_skipped : Nat
  errors : List String
deriving DecidableEq

/-- Transaction state while a batch request is being processed: committed rows
(visible from before the request), rows flushed but not yet committed, and the
three running tallies of `ingest_events_batch`. -/
structure BatchState where
  committed : List StoredEvent
  pending : List StoredEvent
  stored : Nat
  duplicates : Nat
  errors : List String
deriving DecidableEq

/-- One iteration of the `for event in batch.events` loop of
`ingest_events_batch`: reference failures append a diagnostic and skip the
item; otherwise the row is flushed. A flush that violates the uniqueness
constraint (checked against committed plus already-flushed rows) raises
`IntegrityError`, and the handler calls `db.rollback()`, which discards every
pending (flushed, uncommitted) row of the transaction, then counts a
duplicate. -/
def processItem (validWorkers validStations : List String) (now : Int)
    (st : BatchState) (ev : EventCreate) : BatchState :=
  if !(validWorkers.contains ev.worker_id) then
    { st with errors := st.errors ++ ["Unknown worker_id: " ++ ev.worker_id] }
  else if !(validStations.contains ev.workstation_id) then
    { st with errors := st.errors ++ ["Unknown workstation_id: " ++ ev.workstation_id] }
  else
    let row := mkStoredEvent ev now
    if (st.committed ++ st.pending).any (fun r => sameKey r row) then
      { st with pending := [], duplicates := st.duplicates + 1 }
    else
      { st with pending := st.pending ++ [row], stored := st.stored + 1 }

/-- `routes/events.py ingest_events_batch`: snapshot the valid reference ids,
process each item in order, then `db.commit()` the surviving pending rows and
return the summary with the diagnostics list truncated to 10. -/
def ingest_events_batch (db : Db) (events : List EventCreate) (now : Int) :
    Db × EventIngestionResult :=
  let validWorkers := db.workers.map (fun w => w.worker_id)
  let validStations := db.workstations.map (fun s => s.station_id)
  let st := events.foldl (processItem validWorkers validStations now)
    { committed := db.committed, pending := [], stored := 0, duplicates := 0, errors := [] }
  ({ db with committed := st.committed ++ st.pending },
   { total_received := events.length
     successfully_stored := st.stored
     duplicates_skipped := st.duplicates
     errors := st.errors.take 10 })

/-- `config.EVENT_DURATION_MINUTES`: each time-bearing event represents this
many minutes of activity (default 5). -/
def EVENT_DURATION_MINUTES : ℚ := 5

/-- Python `round(x, 2)` at the output boundary, modelled on exact rationals:
round to the nearest multiple of one hundredth. -/
def round2 (q : ℚ) : ℚ := (round (q * 100) : ℚ) / 100

/-- The optional time-window filter applied to `Event.timestamp` in every
metrics query: `timestamp >= start_time` and `timestamp <= end_time`, each
bound applied only when present. -/
def inWindow (start_time end_time : Option Int) (t : Int) : Bool :=
  (match start_time with
   | none => true
   | some s => decide (s ≤ t)) &&
  (match end_time with
   | none => true
   | some e => decide (t ≤ e))

/-- The event set one per-worker metrics row is computed from: committed
events of that worker whose timestamp satisfies the window filter. -/
def workerEvents (db : Db) (wid : String) (start_time end_time : Option Int) :
    List StoredEvent :=
  db.committed.filter (fun e => e.worker_id == wid && inWindow start_time end_time e.timestamp)

/-- The event set one per-workstation metrics row is computed from. -/
def stationEvents (db : Db) (sid : String) (start_time end_time : Option Int) :
    List StoredEvent :=
  db.committed.filter (fun e => e.workstation_id == sid && inWindow start_time end_time e.timestamp)

/-- The factory-wide event set: all committed events in the window. -/
def windowEvents (db : Db) (start_time end_time : Option Int) : List StoredEvent :=
  db.committed.filter (fun e => inWindow start_time end_time e.timestamp)

/-- `sum(1 for e in events if e.event_type == t)`. -/
def countType (evs : List StoredEvent) (t : EventType) : Nat :=
  (evs.filter (fun e => e.event_type == t)).length

/-- `sum(e.count or 0 for e in events if e.event_type == 'product_count')`. -/
def totalUnits (evs : List StoredEvent) : Nat :=
  ((evs.filter (fun e => e.event_type == EventType.product_count)).map
    (fun e => e.count)).sum

/-- `schemas.WorkerMetrics`. -/
structure WorkerMetrics where
  worker_id : String
  worker_name : String
  total_active_time_minutes : ℚ
  total_idle_time_minutes : ℚ
  total_absent_time_minutes : ℚ
  utilization_percentage : ℚ
  total_units_produced : Nat
  units_per_hour : ℚ
  event_count : Nat
deriving DecidableEq

/-- The per-worker loop body of `compute_worker_metrics`, as a function of the
worker row and its windowed event list. -/
def workerMetricsOfEvents (w : Worker) (events : List StoredEvent) : WorkerMetrics :=
  let working_count := countType events EventType.working
  let idle_count := countType events EventType.idle
  let absent_count := countType events EventType.absent
  let total_units := totalUnits events
  let active_time : ℚ := working_count * EVENT_DURATION_MINUTES
  let idle_time : ℚ := idle_count * EVENT_DURATION_MINUTES
  let absent_time : ℚ := absent_count * EVENT_DURATION_MINUTES
  let total_present_time := active_time + idle_time
  let utilization : ℚ :=
    if total_present_time > 0 then active_time / total_present_time * 100 else 0
  let active_hours : ℚ := if active_time > 0 then active_time / 60 else 0
  let units_per_hour : ℚ := if active_hours > 0 then total_units / active_hours else 0
  { worker_id := w.worker_id
    worker_name := w.name
    total_active_time_minutes := round2 active_time
    total_idle_time_minutes := round2 idle_time
    total_absent_time_minutes := round2 absent_time
    utilization_percentage := round2 utilization
    total_units_produced := total_units
    units_per_hour := round2 units_per_hour
    event_count := events.length }

/-- One iteration of `compute_worker_metrics` for worker `w` against store `db`. -/
def workerMetricsFor (db : Db) (w : Worker) (start_time end_time : Option Int) :
    WorkerMetrics :=
  workerMetricsOfEvents w (workerEvents db w.worker_id start_time end_time)

/-- `services/metrics.py compute_worker_metrics`: all registered workers, or
the ones matching the requested id, each aggregated over its windowed events. -/
def compute_worker_metrics (db : Db) (worker_id : Option String)
    (start_time end_time : Option Int) : List WorkerMetrics :=
  let workers := match worker_id with
    | none => db.workers
    | some wid => db.workers.filter (fun w => w.worker_id == wid)
  workers.map (fun w => workerMetricsFor db w start_time end_time)

/-- `schemas.WorkstationMetrics`. -/
structure WorkstationMetrics where
  station_id : String
  station_name : String
  station_type : Option String
  occupancy_time_minutes : ℚ
  working_time_minutes : ℚ
  idle_time_minutes : ℚ
  utilization_percentage : ℚ
  total_units_produced : Nat
  throughput_rate : ℚ
  event_count : Nat
deriving DecidableEq

/-- The per-station loop body of `compute_workstation_metrics`. -/
def stationMetricsOfEvents (s : Workstation) (events : List StoredEvent) :
    WorkstationMetrics :=
  let working_count := countType events EventType.working
  let idle_count := countType events EventType.idle
  let total_units := totalUnits events
  let working_time : ℚ := working_count * EVENT_DURATION_MINUTES
  let idle_time : ℚ := idle_count * EVENT_DURATION_MINUTES
  let occupancy_time := working_time + idle_time
  let utilization : ℚ :=
    if occupancy_time > 0 then working_time / occupancy_time * 100 else 0
  let occupancy_hours : ℚ := if occupancy_time > 0 then occupancy_time / 60 else 0
  let throughput_rate : ℚ := if occupancy_hours > 0 then total_units / occupancy_hours else 0
  { station_id := s.station_id
    station_name := s.name
    station_type := s.station_type
    occupancy_time_minutes := round2 occupancy_time
    working_time_minutes := round2 working_time
    idle_time_minutes := round2 idle_time
    utilization_percentage := round2 utilization
    total_units_produced := total_units
    throughput_rate := round2 throughput_rate
    event_count := events.length }

/-- One iteration of `compute_workstation_metrics` for station `s`. -/
def stationMetricsFor (db : Db) (s : Workstation) (start_time end_time : Option Int) :
    WorkstationMetrics :=
  stationMetricsOfEvents s (stationEvents db s.station_id start_time end_time)

/-- `services/metrics.py compute_workstation_metrics`. -/
def compute_workstation_metrics (db : Db) (station_id : Option String)
    (start_time end_time : Option Int) : List WorkstationMetrics :=
  let stations := match station_id with
    | none => db.workstations
    | some sid => db.workstations.filter (fun s => s.station_id == sid)
  stations.map (fun s => stationMetricsFor db s start_time end_time)

/-- `schemas.FactoryMetrics`. -/
structure FactoryMetrics where
  total_productive_time_minutes : ℚ
  total_idle_time_minutes : ℚ
  total_production_count : Nat
  average_production_rate : ℚ
  average_worker_utilization : ℚ
  average_workstation_utilization : ℚ
  total_events : Nat
  active_workers : Nat
  active_workstations : Nat
deriving DecidableEq

/-- `services/metrics.py compute_factory_metrics`: factory-wide tallies over
all windowed events, plus averages of the per-entity `utilization_percentage`
values restricted to entities with at least one event in the window. -/
def compute_factory_metrics (db : Db) (start_time end_time : Option Int) :
    FactoryMetrics :=
  let events := windowEvents db start_time end_time
  let working_count := countType events EventType.working
  let idle_count := countType events EventType.idle
  let total_production := totalUnits events
  let total_productive_time : ℚ := working_count * EVENT_DURATION_MINUTES
  let total_idle_time : ℚ := idle_count * EVENT_DURATION_MINUTES
  let productive_hours : ℚ :=
    if total_productive_time > 0 then total_productive_time / 60 else 0
  let avg_production_rate : ℚ :=
    if productive_hours > 0 then total_production / productive_hours else 0
  let worker_metrics := compute_worker_metrics db none start_time end_time
  let station_metrics := compute_workstation_metrics db none start_time end_time
  let active_workers := worker_metrics.filter (fun w => decide (0 < w.event_count))
  let active_stations := station_metrics.filter (fun s => decide (0 < s.event_count))
  let avg_worker_util : ℚ :=
    if active_workers.isEmpty then 0
    else ((active_workers.map (fun w => w.utilization_percentage)).sum) / active_workers.length
  let avg_station_util : ℚ :=
    if active_stations.isEmpty then 0
    else ((active_stations.map (fun s => s.utilization_percentage)).sum) / active_stations.length
  { total_productive_time_minutes := round2 total_productive_time
    total_idle_time_minutes := round2 total_idle_time
    total_production_count := total_production
    average_production_rate := round2 avg_production_rate
    average_worker_utilization := round2 avg_worker_util
    average_workstation_utilization := round2 avg_station_util
    total_events := events.length
    active_workers := active_workers.length
    active_workstations := active_stations.length }

/-- `routes/metrics.py get_worker_metrics` (the `/metrics/workers/{id}` route):
computed metrics when the worker id matches a registered worker, otherwise the
zero-filled record with the sentinel name "Unknown". -/
def get_worker_metrics (db : Db) (worker_id : String)
    (start_time end_time : Option Int) : WorkerMetrics :=
  match compute_worker_metrics db (some worker_id) start_time end_time with
  | [] =>
    { worker_id := worker_id
      worker_name := "Unknown"
      total_active_time_minutes := 0
      total_idle_time_minutes := 0
      total_absent_time_minutes := 0
      utilization_percentage := 0
      total_units_produced := 0
      units_per_hour := 0
      event_count := 0 }
  | m :: _ => m

/-- The full-precision `utilization` local of `compute_worker_metrics`, before
the 2-decimal rounding is applied to it. -/
def rawWorkerUtilization (db : Db) (w : Worker) (start_time end_time : Option Int) : ℚ :=
  let events := workerEvents db w.worker_id start_time end_time
  let active_time : ℚ := countType events EventType.working * EVENT_DURATION_MINUTES
  let idle_time : ℚ := countType events EventType.idle * EVENT_DURATION_MINUTES
  if active_time + idle_time > 0 then active_time / (active_time + idle_time) * 100 else 0

/-- The full-precision `utilization` local of `compute_workstation_metrics`. -/
def rawStationUtilization (db : Db) (st : Workstation) (start_time end_time : Option Int) : ℚ :=
  let events := stationEvents db st.station_id start_time end_time
  let working_time : ℚ := countType events EventType.working * EVENT_DURATION_MINUTES
  let idle_time : ℚ := countType events EventType.idle * EVENT_DURATION_MINUTES
  if working_time + idle_time > 0 then working_time / (working_time + idle_time) * 100 else 0

/-- The factory-level worker-utilization average as the spec's rounding rule
describes it: the arithmetic mean of the full-precision per-worker utilization
values over the workers with at least one event in the window, rounded to two
decimals only once, at the output boundary. Stated from the spec's words for
comparison against `compute_factory_metrics`. -/
def specAverageWorkerUtilization (db : Db) (start_time end_time : Option Int) : ℚ :=
  let activeW := db.workers.filter
    (fun w => !(workerEvents db w.worker_id start_time end_time).isEmpty)
  if activeW.isEmpty then 0
  else round2 (((activeW.map
    (fun w => rawWorkerUtilization db w start_time end_time)).sum) / activeW.length)

/-- Items of a batch that fail reference validation against the snapshot of
valid worker and workstation ids. -/
def refFails (validWorkers validStations : List String) (ev : EventCreate) : Bool :=
  !(validWorkers.contains ev.worker_id) || !(validStations.contains ev.workstation_id)

/-- The store restricted to the events selected by the window filter. -/
def restrictDb (db : Db) (start_time end_time : Option Int) : Db :=
  { db with committed := windowEvents db start_time end_time }

/-- The store with every event's arrival clock rewritten by `f`; used to state
that metrics ignore `received_at`. -/
def setReceivedAt (db : Db) (f : StoredEvent → Int) : Db :=
  { db with committed := db.committed.map (fun ev => { ev with received_at := f ev }) }

/-! Concrete stores and requests used by the closed theorems below. -/

/-- A registered worker. -/
def exWorker : Worker := ⟨"W1", "Alice"⟩

/-- A registered workstation. -/
def exStation : Workstation := ⟨"S1", "Assembly 1", some "Assembly"⟩

/-- A store with reference data but no events. -/
def emptyDb : Db := ⟨[exWorker], [exStation], []⟩

/-- A stored observation at station S1. -/
def obs (t : Int) (wid : String) (ty : EventType) : StoredEvent :=
  ⟨t, wid, "S1", ty, 1, 0, t⟩

/-- An already-committed event whose key a later batch item collides with. -/
def c1PreRow : StoredEvent := ⟨0, "W1", "S1", EventType.working, 1, 0, 0⟩

/-- Store holding `c1PreRow`. -/
def c1Db : Db := ⟨[exWorker], [exStation], [c1PreRow]⟩

/-- A valid, fresh batch item (timestamp 1). -/
def c1EvNew : EventCreate := ⟨1, "W1", "S1", EventType.working, 1, some 0⟩

/-- A batch item whose dedup key equals `c1PreRow`. -/
def c1EvDup : EventCreate := ⟨0, "W1", "S1", EventType.working, 1, some 0⟩

/-- A `working` observation submitted with a non-zero `count`. -/
def c2Ev : EventCreate := ⟨0, "W1", "S1", EventType.working, 1, some 7⟩

/-- The store after `c2Ev` is ingested into `emptyDb`. -/
def c2Db2 : Db := ⟨[exWorker], [exStation], [mkStoredEvent c2Ev 0]⟩

/-- Two workers: W1 with 4 working and 1 idle observation, W2 with none. -/
def c4Db : Db := ⟨[⟨"W1", "Alice"⟩, ⟨"W2", "Bob"⟩], [exStation],
  [obs 0 "W1" EventType.working, obs 1 "W1" EventType.working,
   obs 2 "W1" EventType.working, obs 3 "W1" EventType.working,
   obs 4 "W1" EventType.idle]⟩

/-- One worker with 10 working and 5 idle observations. -/
def c5Db : Db := ⟨[exWorker], [exStation],
  [obs 0 "W1" EventType.working, obs 1 "W1" EventType.working,
   obs 2 "W1" EventType.working, obs 3 "W1" EventType.working,
   obs 4 "W1" EventType.working, obs 5 "W1" EventType.working,
   obs 6 "W1" EventType.working, obs 7 "W1" EventType.working,
   obs 8 "W1" EventType.working, obs 9 "W1" EventType.working,
   obs 10 "W1" EventType.idle, obs 11 "W1" EventType.idle,
   obs 12 "W1" EventType.idle, obs 13 "W1" EventType.idle,
   obs 14 "W1" EventType.idle]⟩

/-- One worker with only an `absent` observation. -/
def c6Db : Db := ⟨[exWorker], [exStation], [obs 0 "W1" EventType.absent]⟩

/-- Three workers whose rounded utilizations average across a rounding
boundary: W1 has 1 idle event (utilization 0), W2 and W3 each have 1 working
and 6 idle events (utilization 100/7). -/
def c8Db : Db := ⟨[⟨"W1", "Ann"⟩, ⟨"W2", "Ben"⟩, ⟨"W3", "Cal"⟩], [exStation],
  [obs 0 "W1" EventType.idle,
   obs 10 "W2" EventType.working, obs 11 "W2" EventType.idle, obs 12 "W2" EventType.idle,
   obs 13 "W2" EventType.idle, obs 14 "W2" EventType.idle, obs 15 "W2" EventType.idle,
   obs 16 "W2" EventType.idle,
   obs 20 "W3" EventType.working, obs 21 "W3" EventType.idle, obs 22 "W3" EventType.idle,
   obs 23 "W3" EventType.idle, obs 24 "W3" EventType.idle, obs 25 "W3" EventType.idle,
   obs 26 "W3" EventType.idle]⟩

/-! Helper lemmas shared by the claim theorems. -/

theorem round2_zero : round2 0 = 0 := by
  simp [round2]

theorem eventType_beq (a b : EventType) : (a == b) = decide (a = b) := by
  cases a <;> cases b <;> rfl

theorem workerMetricsFor_utilization (db : Db) (w : Worker) (s e : Option Int) :
    (workerMetricsFor db w s e).utilization_percentage =
      round2 (rawWorkerUtilization db w s e) := rfl

theorem stationMetricsFor_utilization (db : Db) (st : Workstation) (s e : Option Int) :
    (stationMetricsFor db st s e).utilization_percentage =
      round2 (rawStationUtilization db st s e) := rfl

theorem factory_avg_worker_eq (db : Db) (s e : Option Int) :
    (compute_factory_metrics db s e).average_worker_utilization =
      round2 (if ((compute_worker_metrics db none s e).filter
          (fun m => decide (0 < m.event_count))).isEmpty then 0
        else (((compute_worker_metrics db none s e).filter
            (fun m => decide (0 < m.event_count))).map
          (fun m => m.utilization_percentage)).sum /
          ((compute_worker_metrics db none s e).filter
            (fun m => decide (0 < m.event_count))).length) := rfl

theorem factory_active_workers_eq (db : Db) (s e : Option Int) :
    (compute_factory_metrics db s e).active_workers =
      ((compute_worker_metrics db none s e).filter
        (fun m => decide (0 < m.event_count))).length := rfl

theorem factory_avg_station_eq (db : Db) (s e : Option Int) :
    (compute_factory_metrics db s e).average_workstation_utilization =
      round2 (if ((compute_workstation_metrics db none s e).filter
          (fun m => decide (0 < m.event_count))).isEmpty then 0
        else (((compute_workstation_metrics db none s e).filter
            (fun m => decide (0 < m.event_count))).map
          (fun m => m.utilization_percentage)).sum /
          ((compute_workstation_metrics db none s e).filter
            (fun m => decide (0 < m.event_count))).length) := rfl

theorem factory_active_stations_eq (db : Db) (s e : Option Int) :
    (compute_factory_metrics db s e).active_workstations =
      ((compute_workstation_metrics db none s e).filter
        (fun m => decide (0 < m.event_count))).length := rfl

theorem round2_nat_mul_duration (n : ℕ) :
    round2 ((n : ℚ) * EVENT_DURATION_MINUTES) = (n : ℚ) * EVENT_DURATION_MINUTES := by
  unfold round2 EVENT_DURATION_MINUTES
  have h : ((n : ℚ) * 5) * 100 = ((n * 500 : ℕ) : ℚ) := by
    push_cast
    ring
  rw [h, round_natCast]
  push_cast
  ring

theorem processItem_tallies (vw vs : List String) (now : Int) (st : BatchState)
    (ev : EventCreate) :
    ((processItem vw vs now st ev).stored + (processItem vw vs now st ev).duplicates =
      st.stored + st.duplicates + (if refFails vw vs ev then 0 else 1)) ∧
    ((processItem vw vs now st ev).errors.length =
      st.errors.length + (if refFails vw vs ev then 1 else 0)) := by
  unfold processItem refFails
  by_cases hw : ev.worker_id ∈ vw <;> by_cases hs : ev.workstation_id ∈ vs <;>
    simp [hw, hs]
  split <;> simp <;> omega

theorem processItem_committed (vw vs : List String) (now : Int) (st : BatchState)
    (ev : EventCreate) :
    (processItem vw vs now st ev).committed = st.committed := by
  unfold processItem
  split
  · rfl
  · split
    · rfl
    · dsimp only
      split <;> rfl

theorem processItem_pending_sub (vw vs : List String) (now : Int) (st : BatchState)
    (ev : EventCreate) :
    ∀ r ∈ (processItem vw vs now st ev).pending,
      r ∈ st.pending ∨ r = mkStoredEvent ev now := by
  intro r hr
  unfold processItem at hr
  split at hr
  · exact Or.inl hr
  · split at hr
    · exact Or.inl hr
    · dsimp only at hr
      split at hr
      · simp at hr
      · rcases List.mem_append.mp hr with h | h
        · exact Or.inl h
        · simp at h
          exact Or.inr h

theorem batch_foldl_tallies (vw vs : List String) (now : Int) :
    ∀ (evs : List EventCreate) (st : BatchState),
      ((evs.foldl (processItem vw vs now) st).stored +
        (evs.foldl (processItem vw vs now) st).duplicates +
        (evs.foldl (processItem vw vs now) st).errors.length =
        st.stored + st.duplicates + st.errors.length + evs.length) ∧
      ((evs.foldl (processItem vw vs now) st).errors.length =
        st.errors.length + (evs.filter (refFails vw vs)).length)
  | [], st => by simp
  | ev :: rest, st => by
    obtain ⟨hp1, hp2⟩ := processItem_tallies vw vs now st ev
    obtain ⟨ih1, ih2⟩ := batch_foldl_tallies vw vs now rest (processItem vw vs now st ev)
    rw [List.foldl_cons, List.filter_cons]
    by_cases h : refFails vw vs ev <;> simp [h] at hp1 hp2 ⊢ <;> omega

theorem batch_foldl_rows (vw vs : List String) (now : Int) :
    ∀ (evs : List EventCreate) (st : BatchState),
      ((evs.foldl (processItem vw vs now) st).committed = st.committed) ∧
      (∀ r ∈ (evs.foldl (processItem vw vs now) st).pending,
        r ∈ st.pending ∨ ∃ ev, ev ∈ evs ∧ r = mkStoredEvent ev now)
  | [], st => by simp
  | ev :: rest, st => by
    obtain ⟨ih1, ih2⟩ := batch_foldl_rows vw vs now rest (processItem vw vs now st ev)
    rw [List.foldl_cons]
    refine ⟨by rw [ih1, processItem_committed], ?_⟩
    intro r hr
    rcases ih2 r hr with h | ⟨ev2, hev2, hrw⟩
    · rcases processItem_pending_sub vw vs now st ev r h with h2 | h2
      · exact Or.inl h2
      · exact Or.inr ⟨ev, List.mem_cons_self ev rest, h2⟩
    · exact Or.inr ⟨ev2, List.mem_cons_of_mem ev hev2, hrw⟩

/-- C1 (code behaviour at the failing input): in the batch
`[c1EvNew, c1EvDup]` against `c1Db`, the second item collides with the
already-committed `c1PreRow`, and the resulting rollback discards the already
flushed, valid first item: the summary reports it as stored, yet the final
store still holds only `c1PreRow`, so the valid, non-duplicate item never
ends up stored. -/
theorem c1_duplicate_rolls_back_stored_item :
    (ingest_events_batch c1Db [c1EvNew, c1EvDup] 5).2 =
      { total_received := 2, successfully_stored := 1, duplicates_skipped := 1, errors := [] } ∧
    (ingest_events_batch c1Db [c1EvNew, c1EvDup] 5).1.committed = [c1PreRow] ∧
    ¬ (mkStoredEvent c1EvNew 5 ∈ (ingest_events_batch c1Db [c1EvNew, c1EvDup] 5).1.committed) := by
  decide

/-- C3 (code behaviour at the failing input): submitting the identical event
twice within one batch stores zero rows, not exactly one: the second copy's
uniqueness conflict rolls back the flushed first copy, while the summary
still reports one stored and one duplicate. -/
theorem c3_inbatch_duplicate_pair_stores_zero_rows :
    (ingest_events_batch emptyDb [c1EvNew, c1EvNew] 5).1.committed = [] ∧
    (ingest_events_batch emptyDb [c1EvNew, c1EvNew] 5).2 =
      { total_received := 2, successfully_stored := 1, duplicates_skipped := 1, errors := [] } := by
  decide

/-- C2 counterexample: a `working` event submitted with `count = 7` is stored
and read back with `count = 7`, not normalized to `0`. -/
theorem c2_counterexample :
    ((ingest_event emptyDb c2Ev 0).toOption.map
      (fun p => p.1.committed.map (fun r => r.count))) = some [7] := by
  decide

/-- C8 counterexample: on `c8Db` the code averages the already-rounded
per-worker utilization values (0, 14.29, 14.29), giving 9.53 after the final
rounding, whereas averaging the full-precision values (0, 100/7, 100/7) and
rounding once at the output gives 9.52. -/
theorem c8_counterexample :
    (compute_factory_metrics c8Db none none).average_worker_utilization = 953 / 100 ∧
    specAverageWorkerUtilization c8Db none none = 952 / 100 ∧
    (compute_factory_metrics c8Db none none).average_worker_utilization ≠
      specAverageWorkerUtilization c8Db none none := by
  have hraw1 : rawWorkerUtilization c8Db ⟨"W1", "Ann"⟩ none none = 0 := by
    have hw : countType (workerEvents c8Db "W1" none none) EventType.working = 0 := by decide
    have hi : countType (workerEvents c8Db "W1" none none) EventType.idle = 1 := by decide
    simp [rawWorkerUtilization, hw, hi]
  have hraw2 : rawWorkerUtilization c8Db ⟨"W2", "Ben"⟩ none none = 100 / 7 := by
    have hw : countType (workerEvents c8Db "W2" none none) EventType.working = 1 := by decide
    have hi : countType (workerEvents c8Db "W2" none none) EventType.idle = 6 := by decide
    simp [rawWorkerUtilization, hw, hi, EVENT_DURATION_MINUTES]
    norm_num
  have hraw3 : rawWorkerUtilization c8Db ⟨"W3", "Cal"⟩ none none = 100 / 7 := by
    have hw : countType (workerEvents c8Db "W3" none none) EventType.working = 1 := by decide
    have hi : countType (workerEvents c8Db "W3" none none) EventType.idle = 6 := by decide
    simp [rawWorkerUtilization, hw, hi, EVENT_DURATION_MINUTES]
    norm_num
  have hu1 : (workerMetricsFor c8Db ⟨"W1", "Ann"⟩ none none).utilization_percentage = 0 := by
    rw [workerMetricsFor_utilization, hraw1, round2_zero]
  have hu2 : (workerMetricsFor c8Db ⟨"W2", "Ben"⟩ none none).utilization_percentage = 1429 / 100 := by
    rw [workerMetricsFor_utilization, hraw2]
    unfold round2
    rw [round_eq]
    norm_num
  have hu3 : (workerMetricsFor c8Db ⟨"W3", "Cal"⟩ none none).utilization_percentage = 1429 / 100 := by
    rw [workerMetricsFor_utilization, hraw3]
    unfold round2
    rw [round_eq]
    norm_num
  have hec1 : (workerMetricsFor c8Db ⟨"W1", "Ann"⟩ none none).event_count = 1 := by decide
  have hec2 : (workerMetricsFor c8Db ⟨"W2", "Ben"⟩ none none).event_count = 7 := by decide
  have hec3 : (workerMetricsFor c8Db ⟨"W3", "Cal"⟩ none none).event_count = 7 := by decide
  have hlist : compute_worker_metrics c8Db none none none =
      [workerMetricsFor c8Db ⟨"W1", "Ann"⟩ none none,
       workerMetricsFor c8Db ⟨"W2", "Ben"⟩ none none,
       workerMetricsFor c8Db ⟨"W3", "Cal"⟩ none none] := rfl
  have h1 : (compute_factory_metrics c8Db none none).average_worker_utilization = 953 / 100 := by
    rw [factory_avg_worker_eq, hlist]
    rw [List.filter_cons, List.filter_cons, List.filter_cons, List.filter_nil]
    rw [hec1, hec2, hec3]
    norm_num [hu1, hu2, hu3]
    unfold round2
    rw [round_eq]
    norm_num
  have h2 : specAverageWorkerUtilization c8Db none none = 952 / 100 := by
    have hact : c8Db.workers.filter
        (fun w => !(workerEvents c8Db w.worker_id none none).isEmpty) =
        [⟨"W1", "Ann"⟩, ⟨"W2", "Ben"⟩, ⟨"W3", "Cal"⟩] := by decide
    unfold specAverageWorkerUtilization
    rw [hact]
    norm_num [hraw1, hraw2, hraw3]
    unfold round2
    rw [round_eq]
    norm_num
  refine ⟨h1, h2, ?_⟩
  rw [h1, h2]
  norm_num

/-- C2 (amended): both ingestion paths construct the stored row with
`count = event.count or 0`: the stored count equals the submitted count with
a missing count defaulting to 0, with no type-based normalization — a
non-`product_count` event keeps a non-zero submitted count. Part one states
the count carried by the shared row constructor; part two shows single-event
ingestion stores exactly that row; part three shows every row a batch adds
to the store is that constructor applied to one of the submitted items. -/
theorem c2_count_passthrough :
    (∀ (ev : EventCreate) (now : Int), (mkStoredEvent ev now).count = ev.count.getD 0) ∧
    (∀ (db : Db) (ev : EventCreate) (now : Int) (db2 : Db) (row : StoredEvent),
      ingest_event db ev now = Except.ok (db2, row) →
      row = mkStoredEvent ev now ∧ db2.committed = db.committed ++ [mkStoredEvent ev now]) ∧
    (∀ (db : Db) (events : List EventCreate) (now : Int) (r : StoredEvent),
      r ∈ (ingest_events_batch db events now).1.committed →
      r ∈ db.committed ∨ ∃ ev, ev ∈ events ∧ r = mkStoredEvent ev now) := by
  refine ⟨fun ev now => rfl, ?_, ?_⟩
  · intro db ev now db2 row h
    unfold ingest_event at h
    split at h
    · simp at h
    · split at h
      · simp at h
      · dsimp only at h
        split at h
        · simp at h
        · simp only [Except.ok.injEq, Prod.mk.injEq] at h
          obtain ⟨hdb, hrow⟩ := h
          subst hdb hrow
          exact ⟨rfl, rfl⟩
  · intro db events now r hr
    obtain ⟨hc, hp⟩ := batch_foldl_rows (db.workers.map (fun w => w.worker_id))
      (db.workstations.map (fun s => s.station_id)) now events
      { committed := db.committed, pending := [], stored := 0, duplicates := 0, errors := [] }
    have hsplit : (ingest_events_batch db events now).1.committed =
        (events.foldl (processItem (db.workers.map (fun w => w.worker_id))
          (db.workstations.map (fun s => s.station_id)) now)
          { committed := db.committed, pending := [], stored := 0, duplicates := 0,
            errors := [] }).committed ++
        (events.foldl (processItem (db.workers.map (fun w => w.worker_id))
          (db.workstations.map (fun s => s.station_id)) now)
          { committed := db.committed, pending := [], stored := 0, duplicates := 0,
            errors := [] }).pending := rfl
    rw [hsplit, hc] at hr
    rcases List.mem_append.mp hr with h | h
    · exact Or.inl h
    · rcases hp r h with h2 | h2
      · simp at h2
      · exact Or.inr h2

/-- Witness for C2 at a concrete input: ingesting the `working` event `c2Ev`
(submitted `count = 7`) into `emptyDb` stores exactly `mkStoredEvent c2Ev 0`. -/
theorem c2_count_passthrough_witness :
    mkStoredEvent c2Ev 0 = mkStoredEvent c2Ev 0 ∧
    c2Db2.committed = emptyDb.committed ++ [mkStoredEvent c2Ev 0] :=
  c2_count_passthrough.2.1 emptyDb c2Ev 0 c2Db2 (mkStoredEvent c2Ev 0) (by rfl)

/-- C10: the returned batch counters classify every item into exactly one of
stored, duplicate, or reference failure — `successfully_stored +
duplicates_skipped + (items failing reference validation) = total_received`
— and the returned diagnostics list is truncated to at most 10 entries. -/
theorem c10_batch_accounting (db : Db) (events : List EventCreate) (now : Int) :
    (ingest_events_batch db events now).2.successfully_stored +
      (ingest_events_batch db events now).2.duplicates_skipped +
      (events.filter (refFails (db.workers.map (fun w => w.worker_id))
        (db.workstations.map (fun s => s.station_id)))).length =
      (ingest_events_batch db events now).2.total_received ∧
    (ingest_events_batch db events now).2.errors.length ≤ 10 := by
  obtain ⟨h1, h2⟩ := batch_foldl_tallies (db.workers.map (fun w => w.worker_id))
    (db.workstations.map (fun s => s.station_id)) now events
    { committed := db.committed, pending := [], stored := 0, duplicates := 0, errors := [] }
  dsimp only at h1 h2
  constructor
  · show (events.foldl (processItem (db.workers.map (fun w => w.worker_id))
        (db.workstations.map (fun s => s.station_id)) now)
        { committed := db.committed, pending := [], stored := 0, duplicates := 0,
          errors := [] }).stored +
      (events.foldl (processItem (db.workers.map (fun w => w.worker_id))
        (db.workstations.map (fun s => s.station_id)) now)
        { committed := db.committed, pending := [], stored := 0, duplicates := 0,
          errors := [] }).duplicates +
      (events.filter (refFails (db.workers.map (fun w => w.worker_id))
        (db.workstations.map (fun s => s.station_id)))).length = events.length
    omega
  · show ((events.foldl (processItem (db.workers.map (fun w => w.worker_id))
        (db.workstations.map (fun s => s.station_id)) now)
        { committed := db.committed, pending := [], stored := 0, duplicates := 0,
          errors := [] }).errors.take 10).length ≤ 10
    rw [List.length_take]
    exact min_le_left _ _

/-- C5: per-worker time inference and utilization: active time is
`working_count × D`, idle time is `idle_count × D`, utilization is
`active / (active + idle) × 100` (absent time excluded from the denominator,
zero when the denominator is zero, rounded at the output); and on the spec's
scenario (D = 5, 10 working and 5 idle events) the metrics are 50.0 active
minutes, 25.0 idle minutes, utilization 66.67. -/
theorem c5_time_inference_formulas (db : Db) (w : Worker) (s e : Option Int) :
    ((workerMetricsFor db w s e).total_active_time_minutes =
      (countType (workerEvents db w.worker_id s e) EventType.working : ℚ) *
        EVENT_DURATION_MINUTES) ∧
    ((workerMetricsFor db w s e).total_idle_time_minutes =
      (countType (workerEvents db w.worker_id s e) EventType.idle : ℚ) *
        EVENT_DURATION_MINUTES) ∧
    ((workerMetricsFor db w s e).utilization_percentage =
      round2 (if ((countType (workerEvents db w.worker_id s e) EventType.working : ℚ) *
            EVENT_DURATION_MINUTES +
          (countType (workerEvents db w.worker_id s e) EventType.idle : ℚ) *
            EVENT_DURATION_MINUTES) > 0 then
        ((countType (workerEvents db w.worker_id s e) EventType.working : ℚ) *
          EVENT_DURATION_MINUTES) /
        ((countType (workerEvents db w.worker_id s e) EventType.working : ℚ) *
            EVENT_DURATION_MINUTES +
          (countType (workerEvents db w.worker_id s e) EventType.idle : ℚ) *
            EVENT_DURATION_MINUTES) * 100
        else 0)) ∧
    workerMetricsFor c5Db exWorker none none =
      ⟨"W1", "Alice", 50, 25, 0, 6667 / 100, 0, 0, 15⟩ := by
  refine ⟨round2_nat_mul_duration _, round2_nat_mul_duration _, rfl, ?_⟩
  have hw : countType (workerEvents c5Db "W1" none none) EventType.working = 10 := by decide
  have hi : countType (workerEvents c5Db "W1" none none) EventType.idle = 5 := by decide
  have ha : countType (workerEvents c5Db "W1" none none) EventType.absent = 0 := by decide
  have hu : totalUnits (workerEvents c5Db "W1" none none) = 0 := by decide
  have hl : (workerEvents c5Db "W1" none none).length = 15 := by decide
  show workerMetricsOfEvents exWorker (workerEvents c5Db "W1" none none) = _
  rw [workerMetricsOfEvents]
  rw [hw, hi, ha, hu, hl]
  simp only [exWorker, EVENT_DURATION_MINUTES]
  norm_num [WorkerMetrics.mk.injEq, round2, round_eq]

/-- C6: no unguarded division: a worker with no working and no idle events in
the window (for example only `absent` events) gets utilization 0.0 rather
than a division error, and zero active/occupancy time yields
`units_per_hour = 0` and `throughput_rate = 0`. -/
theorem c6_division_zero_guards :
    (∀ (db : Db) (w : Worker) (s e : Option Int),
      countType (workerEvents db w.worker_id s e) EventType.working = 0 →
      countType (workerEvents db w.worker_id s e) EventType.idle = 0 →
      (workerMetricsFor db w s e).utilization_percentage = 0) ∧
    (∀ (db : Db) (w : Worker) (s e : Option Int),
      countType (workerEvents db w.worker_id s e) EventType.working = 0 →
      (workerMetricsFor db w s e).units_per_hour = 0) ∧
    (∀ (db : Db) (st : Workstation) (s e : Option Int),
      countType (stationEvents db st.station_id s e) EventType.working = 0 →
      countType (stationEvents db st.station_id s e) EventType.idle = 0 →
      (stationMetricsFor db st s e).utilization_percentage = 0) ∧
    (∀ (db : Db) (st : Workstation) (s e : Option Int),
      countType (stationEvents db st.station_id s e) EventType.working = 0 →
      countType (stationEvents db st.station_id s e) EventType.idle = 0 →
      (stationMetricsFor db st s e).throughput_rate = 0) := by
  refine ⟨?_, ?_, ?_, ?_⟩
  · intro db w s e hw hi
    show (workerMetricsOfEvents w (workerEvents db w.worker_id s e)).utilization_percentage = 0
    rw [workerMetricsOfEvents]
    rw [hw, hi]
    norm_num [round2_zero]
  · intro db w s e hw
    show (workerMetricsOfEvents w (workerEvents db w.worker_id s e)).units_per_hour = 0
    rw [workerMetricsOfEvents]
    rw [hw]
    norm_num [round2_zero]
  · intro db st s e hw hi
    show (stationMetricsOfEvents st (stationEvents db st.station_id s e)).utilization_percentage = 0
    rw [stationMetricsOfEvents]
    rw [hw, hi]
    norm_num [round2_zero]
  · intro db st s e hw hi
    show (stationMetricsOfEvents st (stationEvents db st.station_id s e)).throughput_rate = 0
    rw [stationMetricsOfEvents]
    rw [hw, hi]
    norm_num [round2_zero]

/-- C9: the single-worker metrics route never errors on missing data: an id
matching no registered worker returns the sentinel name "Unknown" with all
numeric fields zero, and a registered worker with no events in the window
returns its real name with the same zeroed numeric fields. -/
theorem c9_missing_data_degrades_to_zero :
    (∀ (db : Db) (wid : String) (s e : Option Int),
      db.workers.filter (fun w => w.worker_id == wid) = [] →
      get_worker_metrics db wid s e = ⟨wid, "Unknown", 0, 0, 0, 0, 0, 0, 0⟩) ∧
    (∀ (db : Db) (wid : String) (w : Worker) (rest : List Worker) (s e : Option Int),
      db.workers.filter (fun x => x.worker_id == wid) = w :: rest →
      workerEvents db w.worker_id s e = [] →
      get_worker_metrics db wid s e = ⟨w.worker_id, w.name, 0, 0, 0, 0, 0, 0, 0⟩) := by
  constructor
  · intro db wid s e h
    unfold get_worker_metrics compute_worker_metrics
    dsimp only
    rw [h]
    rfl
  · intro db wid w rest s e h hev
    unfold get_worker_metrics compute_worker_metrics
    dsimp only
    rw [h]
    rw [List.map_cons]
    show workerMetricsOfEvents w (workerEvents db w.worker_id s e) = _
    rw [hev]
    rw [workerMetricsOfEvents]
    norm_num [countType, totalUnits, round2_zero]

/-- Witness for C9: on `emptyDb`, the unknown id "W9" yields the sentinel
record and the registered worker "W1" yields the zeroed record with its
real name. -/
theorem c9_missing_data_degrades_to_zero_witness :
    get_worker_metrics emptyDb "W9" none none = ⟨"W9", "Unknown", 0, 0, 0, 0, 0, 0, 0⟩ ∧
    get_worker_metrics emptyDb "W1" none none = ⟨"W1", "Alice", 0, 0, 0, 0, 0, 0, 0⟩ :=
  ⟨c9_missing_data_degrades_to_zero.1 emptyDb "W9" none none (by decide),
   c9_missing_data_degrades_to_zero.2 emptyDb "W1" exWorker [] none none (by decide) (by decide)⟩

/-- Witness for C6: the worker and station of `c6Db` (a single `absent`
event) give utilization 0, units per hour 0, and throughput 0. -/
theorem c6_division_zero_guards_witness :
    (workerMetricsFor c6Db exWorker none none).utilization_percentage = 0 ∧
    (workerMetricsFor c6Db exWorker none none).units_per_hour = 0 ∧
    (stationMetricsFor c6Db exStation none none).utilization_percentage = 0 ∧
    (stationMetricsFor c6Db exStation none none).throughput_rate = 0 :=
  ⟨c6_division_zero_guards.1 c6Db exWorker none none (by decide) (by decide),
   c6_division_zero_guards.2.1 c6Db exWorker none none (by decide),
   c6_division_zero_guards.2.2.1 c6Db exStation none none (by decide) (by decide),
   c6_division_zero_guards.2.2.2 c6Db exStation none none (by decide) (by decide)⟩

/-- C4: the factory averages are taken over exactly the active entities, on
both the worker and the workstation side: adding a worker or workstation with
zero events in the window changes no factory metric (in particular it enters
neither average's denominator nor the active counts); `active_workers` and
`active_workstations` count the entities with at least one event in the
window; the reported averages are the (rounded) arithmetic means of the
per-entity `utilization_percentage` values over exactly those entities; and
on the spec's scenario (one worker at utilization 80, one worker with no
events) the average is 80.0 with `active_workers = 1`. -/
theorem c4_factory_average_over_active_entities :
    (∀ (db : Db) (w0 : Worker) (s e : Option Int),
      workerEvents db w0.worker_id s e = [] →
      compute_factory_metrics { db with workers := db.workers ++ [w0] } s e =
        compute_factory_metrics db s e) ∧
    (∀ (db : Db) (s0 : Workstation) (s e : Option Int),
      stationEvents db s0.station_id s e = [] →
      compute_factory_metrics { db with workstations := db.workstations ++ [s0] } s e =
        compute_factory_metrics db s e) ∧
    (∀ (db : Db) (s e : Option Int),
      (compute_factory_metrics db s e).active_workers =
        ((compute_worker_metrics db none s e).filter
          (fun m => decide (0 < m.event_count))).length ∧
      (compute_factory_metrics db s e).average_worker_utilization =
        round2 (if ((compute_worker_metrics db none s e).filter
            (fun m => decide (0 < m.event_count))).isEmpty then 0
          else (((compute_worker_metrics db none s e).filter
              (fun m => decide (0 < m.event_count))).map
            (fun m => m.utilization_percentage)).sum /
            ((compute_worker_metrics db none s e).filter
              (fun m => decide (0 < m.event_count))).length) ∧
      (compute_factory_metrics db s e).active_workstations =
        ((compute_workstation_metrics db none s e).filter
          (fun m => decide (0 < m.event_count))).length ∧
      (compute_factory_metrics db s e).average_workstation_utilization =
        round2 (if ((compute_workstation_metrics db none s e).filter
            (fun m => decide (0 < m.event_count))).isEmpty then 0
          else (((compute_workstation_metrics db none s e).filter
              (fun m => decide (0 < m.event_count))).map
            (fun m => m.utilization_percentage)).sum /
            ((compute_workstation_metrics db none s e).filter
              (fun m => decide (0 < m.event_count))).length)) ∧
    ((compute_factory_metrics c4Db none none).average_worker_utilization = 80 ∧
     (compute_factory_metrics c4Db none none).active_workers = 1) := by
  refine ⟨?_, ?_, fun db s e => ⟨factory_active_workers_eq db s e, factory_avg_worker_eq db s e,
    factory_active_stations_eq db s e, factory_avg_station_eq db s e⟩, ?_, ?_⟩
  · intro db w0 s e h
    have hwm : compute_worker_metrics { db with workers := db.workers ++ [w0] } none s e =
        compute_worker_metrics db none s e ++ [workerMetricsFor db w0 s e] := by
      show (db.workers ++ [w0]).map (fun w => workerMetricsFor db w s e) =
        db.workers.map (fun w => workerMetricsFor db w s e) ++ [workerMetricsFor db w0 s e]
      rw [List.map_append]
      rfl
    have hcnt : (workerMetricsFor db w0 s e).event_count = 0 := by
      show (workerMetricsOfEvents w0 (workerEvents db w0.worker_id s e)).event_count = 0
      rw [h]
      rfl
    have key : (compute_worker_metrics { db with workers := db.workers ++ [w0] } none s e).filter
          (fun m => decide (0 < m.event_count)) =
        (compute_worker_metrics db none s e).filter (fun m => decide (0 < m.event_count)) := by
      rw [hwm, List.filter_append]
      simp [hcnt]
    unfold compute_factory_metrics
    dsimp only
    rw [key]
    rfl
  · intro db s0 s e h
    have hsm : compute_workstation_metrics
          { db with workstations := db.workstations ++ [s0] } none s e =
        compute_workstation_metrics db none s e ++ [stationMetricsFor db s0 s e] := by
      show (db.workstations ++ [s0]).map (fun st => stationMetricsFor db st s e) =
        db.workstations.map (fun st => stationMetricsFor db st s e) ++
          [stationMetricsFor db s0 s e]
      rw [List.map_append]
      rfl
    have hcnt : (stationMetricsFor db s0 s e).event_count = 0 := by
      show (stationMetricsOfEvents s0 (stationEvents db s0.station_id s e)).event_count = 0
      rw [h]
      rfl
    have key : (compute_workstation_metrics
          { db with workstations := db.workstations ++ [s0] } none s e).filter
          (fun m => decide (0 < m.event_count)) =
        (compute_workstation_metrics db none s e).filter
          (fun m => decide (0 < m.event_count)) := by
      rw [hsm, List.filter_append]
      simp [hcnt]
    unfold compute_factory_metrics
    dsimp only
    rw [key]
    rfl
  · have hraw : rawWorkerUtilization c4Db ⟨"W1", "Alice"⟩ none none = 80 := by
      have hw : countType (workerEvents c4Db "W1" none none) EventType.working = 4 := by decide
      have hi : countType (workerEvents c4Db "W1" none none) EventType.idle = 1 := by decide
      simp [rawWorkerUtilization, hw, hi, EVENT_DURATION_MINUTES]
      norm_num
    have hu : (workerMetricsFor c4Db ⟨"W1", "Alice"⟩ none none).utilization_percentage = 80 := by
      rw [workerMetricsFor_utilization, hraw]
      unfold round2
      rw [round_eq]
      norm_num
    have hec1 : (workerMetricsFor c4Db ⟨"W1", "Alice"⟩ none none).event_count = 5 := by decide
    have hec2 : (workerMetricsFor c4Db ⟨"W2", "Bob"⟩ none none).event_count = 0 := by decide
    have hlist : compute_worker_metrics c4Db none none none =
        [workerMetricsFor c4Db ⟨"W1", "Alice"⟩ none none,
         workerMetricsFor c4Db ⟨"W2", "Bob"⟩ none none] := rfl
    rw [factory_avg_worker_eq, hlist]
    rw [List.filter_cons, List.filter_cons, List.filter_nil]
    rw [hec1, hec2]
    norm_num [hu]
    unfold round2
    rw [round_eq]
    norm_num
  · have hec1 : (workerMetricsFor c4Db ⟨"W1", "Alice"⟩ none none).event_count = 5 := by decide
    have hec2 : (workerMetricsFor c4Db ⟨"W2", "Bob"⟩ none none).event_count = 0 := by decide
    have hlist : compute_worker_metrics c4Db none none none =
        [workerMetricsFor c4Db ⟨"W1", "Alice"⟩ none none,
         workerMetricsFor c4Db ⟨"W2", "Bob"⟩ none none] := rfl
    rw [factory_active_workers_eq, hlist]
    rw [List.filter_cons, List.filter_cons, List.filter_nil]
    rw [hec1, hec2]
    norm_num

/-- Witness for C4: appending the event-less worker "W2", or the event-less
workstation "S2", to `emptyDb` leaves the factory metrics unchanged. -/
theorem c4_factory_average_over_active_entities_witness :
    compute_factory_metrics { emptyDb with workers := emptyDb.workers ++ [⟨"W2", "Bob"⟩] }
        none none =
      compute_factory_metrics emptyDb none none ∧
    compute_factory_metrics
        { emptyDb with workstations := emptyDb.workstations ++ [⟨"S2", "Paint", none⟩] }
        none none =
      compute_factory_metrics emptyDb none none :=
  ⟨c4_factory_average_over_active_entities.1 emptyDb ⟨"W2", "Bob"⟩ none none (by rfl),
   c4_factory_average_over_active_entities.2.1 emptyDb ⟨"S2", "Paint", none⟩ none none (by rfl)⟩

theorem inWindow_none_none (t : Int) : inWindow none none t = true := rfl

theorem workerEvents_restrict (db : Db) (wid : String) (s e : Option Int) :
    workerEvents (restrictDb db s e) wid none none = workerEvents db wid s e := by
  unfold workerEvents restrictDb windowEvents
  dsimp only
  rw [List.filter_filter]
  apply List.filter_congr
  intro a _
  simp [inWindow_none_none]

theorem stationEvents_restrict (db : Db) (sid : String) (s e : Option Int) :
    stationEvents (restrictDb db s e) sid none none = stationEvents db sid s e := by
  unfold stationEvents restrictDb windowEvents
  dsimp only
  rw [List.filter_filter]
  apply List.filter_congr
  intro a _
  simp [inWindow_none_none]

theorem windowEvents_restrict (db : Db) (s e : Option Int) :
    windowEvents (restrictDb db s e) none none = windowEvents db s e := by
  unfold windowEvents restrictDb
  dsimp only
  simp [inWindow_none_none]
  rfl

theorem workerMetricsFor_restrict (db : Db) (w : Worker) (s e : Option Int) :
    workerMetricsFor (restrictDb db s e) w none none = workerMetricsFor db w s e :=
  congrArg (workerMetricsOfEvents w) (workerEvents_restrict db w.worker_id s e)

theorem stationMetricsFor_restrict (db : Db) (st : Workstation) (s e : Option Int) :
    stationMetricsFor (restrictDb db s e) st none none = stationMetricsFor db st s e :=
  congrArg (stationMetricsOfEvents st) (stationEvents_restrict db st.station_id s e)

theorem compute_worker_metrics_restrict (db : Db) (wid : Option String) (s e : Option Int) :
    compute_worker_metrics (restrictDb db s e) wid none none =
      compute_worker_metrics db wid s e := by
  unfold compute_worker_metrics
  dsimp only
  rw [show ((restrictDb db s e).workers) = db.workers from rfl]
  rw [funext (fun w => workerMetricsFor_restrict db w s e)]

theorem compute_workstation_metrics_restrict (db : Db) (sid : Option String)
    (s e : Option Int) :
    compute_workstation_metrics (restrictDb db s e) sid none none =
      compute_workstation_metrics db sid s e := by
  unfold compute_workstation_metrics
  dsimp only
  rw [show ((restrictDb db s e).workstations) = db.workstations from rfl]
  rw [funext (fun st => stationMetricsFor_restrict db st s e)]

theorem compute_factory_metrics_restrict (db : Db) (s e : Option Int) :
    compute_factory_metrics (restrictDb db s e) none none =
      compute_factory_metrics db s e := by
  unfold compute_factory_metrics
  dsimp only
  rw [windowEvents_restrict, compute_worker_metrics_restrict,
    compute_workstation_metrics_restrict]

theorem workerEvents_setReceivedAt (db : Db) (f : StoredEvent → Int) (wid : String)
    (s e : Option Int) :
    workerEvents (setReceivedAt db f) wid s e =
      (workerEvents db wid s e).map (fun ev => { ev with received_at := f ev }) := by
  unfold workerEvents setReceivedAt
  dsimp only
  rw [List.filter_map]
  rfl

theorem stationEvents_setReceivedAt (db : Db) (f : StoredEvent → Int) (sid : String)
    (s e : Option Int) :
    stationEvents (setReceivedAt db f) sid s e =
      (stationEvents db sid s e).map (fun ev => { ev with received_at := f ev }) := by
  unfold stationEvents setReceivedAt
  dsimp only
  rw [List.filter_map]
  rfl

theorem windowEvents_setReceivedAt (db : Db) (f : StoredEvent → Int) (s e : Option Int) :
    windowEvents (setReceivedAt db f) s e =
      (windowEvents db s e).map (fun ev => { ev with received_at := f ev }) := by
  unfold windowEvents setReceivedAt
  dsimp only
  rw [List.filter_map]
  rfl

theorem countType_map_receivedAt (evs : List StoredEvent) (f : StoredEvent → Int)
    (t : EventType) :
    countType (evs.map (fun ev => { ev with received_at := f ev })) t = countType evs t := by
  unfold countType
  rw [List.filter_map, List.length_map]
  rfl

theorem totalUnits_map_receivedAt (evs : List StoredEvent) (f : StoredEvent → Int) :
    totalUnits (evs.map (fun ev => { ev with received_at := f ev })) = totalUnits evs := by
  unfold totalUnits
  rw [List.filter_map, List.map_map]
  rfl

theorem workerMetricsOfEvents_map_receivedAt (w : Worker) (evs : List StoredEvent)
    (f : StoredEvent → Int) :
    workerMetricsOfEvents w (evs.map (fun ev => { ev with received_at := f ev })) =
      workerMetricsOfEvents w evs := by
  unfold workerMetricsOfEvents
  simp only [countType_map_receivedAt, totalUnits_map_receivedAt, List.length_map]

theorem stationMetricsOfEvents_map_receivedAt (st : Workstation) (evs : List StoredEvent)
    (f : StoredEvent → Int) :
    stationMetricsOfEvents st (evs.map (fun ev => { ev with received_at := f ev })) =
      stationMetricsOfEvents st evs := by
  unfold stationMetricsOfEvents
  simp only [countType_map_receivedAt, totalUnits_map_receivedAt, List.length_map]

theorem compute_worker_metrics_setReceivedAt (db : Db) (f : StoredEvent → Int)
    (wid : Option String) (s e : Option Int) :
    compute_worker_metrics (setReceivedAt db f) wid s e =
      compute_worker_metrics db wid s e := by
  unfold compute_worker_metrics
  dsimp only
  rw [show ((setReceivedAt db f).workers) = db.workers from rfl]
  rw [funext (fun w => show workerMetricsFor (setReceivedAt db f) w s e =
    workerMetricsFor db w s e from by
      unfold workerMetricsFor
      rw [workerEvents_setReceivedAt, workerMetricsOfEvents_map_receivedAt])]

theorem compute_workstation_metrics_setReceivedAt (db : Db) (f : StoredEvent → Int)
    (sid : Option String) (s e : Option Int) :
    compute_workstation_metrics (setReceivedAt db f) sid s e =
      compute_workstation_metrics db sid s e := by
  unfold compute_workstation_metrics
  dsimp only
  rw [show ((setReceivedAt db f).workstations) = db.workstations from rfl]
  rw [funext (fun st => show stationMetricsFor (setReceivedAt db f) st s e =
    stationMetricsFor db st s e from by
      unfold stationMetricsFor
      rw [stationEvents_setReceivedAt, stationMetricsOfEvents_map_receivedAt])]

theorem compute_factory_metrics_setReceivedAt (db : Db) (f : StoredEvent → Int)
    (s e : Option Int) :
    compute_factory_metrics (setReceivedAt db f) s e = compute_factory_metrics db s e := by
  unfold compute_factory_metrics
  dsimp only
  rw [windowEvents_setReceivedAt, compute_worker_metrics_setReceivedAt,
    compute_workstation_metrics_setReceivedAt]
  simp only [countType_map_receivedAt, totalUnits_map_receivedAt, List.length_map]

/-- C7: windowing semantics: the window filter is inclusive on both bounds
(`start_time ≤ timestamp ≤ end_time`), an absent bound is unbounded on that
side (checked also at the concrete boundary instants 3 and 7 of the window
[3, 7]); every metrics computation equals the same computation run over only
the events selected by the window filter, so events strictly outside the
window contribute to no aggregate; and rewriting every event's `received_at`
arbitrarily changes no metric. -/
theorem c7_window_semantics :
    (∀ (lo hi t : Int),
      inWindow (some lo) (some hi) t = (decide (lo ≤ t) && decide (t ≤ hi))) ∧
    (∀ (t : Int), inWindow none none t = true) ∧
    (∀ (lo t : Int), inWindow (some lo) none t = decide (lo ≤ t)) ∧
    (∀ (hi t : Int), inWindow none (some hi) t = decide (t ≤ hi)) ∧
    (inWindow (some 3) (some 7) 3 = true ∧ inWindow (some 3) (some 7) 7 = true ∧
     inWindow (some 3) (some 7) 2 = false ∧ inWindow (some 3) (some 7) 8 = false) ∧
    (∀ (db : Db) (wid : Option String) (s e : Option Int),
      compute_worker_metrics (restrictDb db s e) wid none none =
        compute_worker_metrics db wid s e) ∧
    (∀ (db : Db) (sid : Option String) (s e : Option Int),
      compute_workstation_metrics (restrictDb db s e) sid none none =
        compute_workstation_metrics db sid s e) ∧
    (∀ (db : Db) (s e : Option Int),
      compute_factory_metrics (restrictDb db s e) none none =
        compute_factory_metrics db s e) ∧
    (∀ (db : Db) (f : StoredEvent → Int) (wid : Option String) (s e : Option Int),
      compute_worker_metrics (setReceivedAt db f) wid s e =
        compute_worker_metrics db wid s e) ∧
    (∀ (db : Db) (f : StoredEvent → Int) (sid : Option String) (s e : Option Int),
      compute_workstation_metrics (setReceivedAt db f) sid s e =
        compute_workstation_metrics db sid s e) ∧
    (∀ (db : Db) (f : StoredEvent → Int) (s e : Option Int),
      compute_factory_metrics (setReceivedAt db f) s e = compute_factory_metrics db s e) :=
  ⟨fun _ _ _ => rfl, fun _ => rfl,
   fun lo t => by simp [inWindow],
   fun hi t => by simp [inWindow],
   ⟨by decide, by decide, by decide, by decide⟩,
   compute_worker_metrics_restrict, compute_workstation_metrics_restrict,
   compute_factory_metrics_restrict, compute_worker_metrics_setReceivedAt,
   compute_workstation_metrics_setReceivedAt, compute_factory_metrics_setReceivedAt⟩

theorem active_worker_metrics (db : Db) (s e : Option Int) :
    (compute_worker_metrics db none s e).filter (fun m => decide (0 < m.event_count)) =
      (db.workers.filter (fun w => !(workerEvents db w.worker_id s e).isEmpty)).map
        (fun w => workerMetricsFor db w s e) := by
  unfold compute_worker_metrics
  dsimp only
  rw [List.filter_map]
  congr 1
  apply List.filter_congr
  intro w _
  show decide (0 < (workerEvents db w.worker_id s e).length) =
    !(workerEvents db w.worker_id s e).isEmpty
  cases workerEvents db w.worker_id s e <;> simp

theorem active_station_metrics (db : Db) (s e : Option Int) :
    (compute_workstation_metrics db none s e).filter (fun m => decide (0 < m.event_count)) =
      (db.workstations.filter (fun st => !(stationEvents db st.station_id s e).isEmpty)).map
        (fun st => stationMetricsFor db st s e) := by
  unfold compute_workstation_metrics
  dsimp only
  rw [List.filter_map]
  congr 1
  apply List.filter_congr
  intro st _
  show decide (0 < (stationEvents db st.station_id s e).length) =
    !(stationEvents db st.station_id s e).isEmpty
  cases stationEvents db st.station_id s e <;> simp

theorem isEmpty_map_eq {α β : Type} (f : α → β) (l : List α) :
    (l.map f).isEmpty = l.isEmpty := by
  cases l <;> rfl

/-- C8 (amended): rounding is applied at each output boundary, not only at
the outermost one: every numeric field of the per-worker, per-workstation,
and factory outputs is the 2-decimal rounding of its full-precision
intermediate, and both factory-level averages — worker and workstation — are
computed over the already-rounded per-entity `utilization_percentage` values
and then rounded again, not over the full-precision intermediates. -/
theorem c8_rounding_at_each_output :
    (∀ (db : Db) (w : Worker) (s e : Option Int),
      (workerMetricsFor db w s e).total_active_time_minutes =
        round2 ((countType (workerEvents db w.worker_id s e) EventType.working : ℚ) *
          EVENT_DURATION_MINUTES) ∧
      (workerMetricsFor db w s e).total_idle_time_minutes =
        round2 ((countType (workerEvents db w.worker_id s e) EventType.idle : ℚ) *
          EVENT_DURATION_MINUTES) ∧
      (workerMetricsFor db w s e).total_absent_time_minutes =
        round2 ((countType (workerEvents db w.worker_id s e) EventType.absent : ℚ) *
          EVENT_DURATION_MINUTES) ∧
      (workerMetricsFor db w s e).utilization_percentage =
        round2 (rawWorkerUtilization db w s e) ∧
      (workerMetricsFor db w s e).units_per_hour =
        round2 (if (if (countType (workerEvents db w.worker_id s e) EventType.working : ℚ) *
              EVENT_DURATION_MINUTES > 0 then
            (countType (workerEvents db w.worker_id s e) EventType.working : ℚ) *
              EVENT_DURATION_MINUTES / 60 else 0) > 0 then
          (totalUnits (workerEvents db w.worker_id s e) : ℚ) /
            (if (countType (workerEvents db w.worker_id s e) EventType.working : ℚ) *
                EVENT_DURATION_MINUTES > 0 then
              (countType (workerEvents db w.worker_id s e) EventType.working : ℚ) *
                EVENT_DURATION_MINUTES / 60 else 0)
          else 0)) ∧
    (∀ (db : Db) (st : Workstation) (s e : Option Int),
      (stationMetricsFor db st s e).occupancy_time_minutes =
        round2 ((countType (stationEvents db st.station_id s e) EventType.working : ℚ) *
            EVENT_DURATION_MINUTES +
          (countType (stationEvents db st.station_id s e) EventType.idle : ℚ) *
            EVENT_DURATION_MINUTES) ∧
      (stationMetricsFor db st s e).working_time_minutes =
        round2 ((countType (stationEvents db st.station_id s e) EventType.working : ℚ) *
          EVENT_DURATION_MINUTES) ∧
      (stationMetricsFor db st s e).idle_time_minutes =
        round2 ((countType (stationEvents db st.station_id s e) EventType.idle : ℚ) *
          EVENT_DURATION_MINUTES) ∧
      (stationMetricsFor db st s e).utilization_percentage =
        round2 (rawStationUtilization db st s e) ∧
      (stationMetricsFor db st s e).throughput_rate =
        round2 (if (if (countType (stationEvents db st.station_id s e) EventType.working : ℚ) *
              EVENT_DURATION_MINUTES +
            (countType (stationEvents db st.station_id s e) EventType.idle : ℚ) *
              EVENT_DURATION_MINUTES > 0 then
            ((countType (stationEvents db st.station_id s e) EventType.working : ℚ) *
                EVENT_DURATION_MINUTES +
              (countType (stationEvents db st.station_id s e) EventType.idle : ℚ) *
                EVENT_DURATION_MINUTES) / 60 else 0) > 0 then
          (totalUnits (stationEvents db st.station_id s e) : ℚ) /
            (if (countType (stationEvents db st.station_id s e) EventType.working : ℚ) *
                EVENT_DURATION_MINUTES +
              (countType (stationEvents db st.station_id s e) EventType.idle : ℚ) *
                EVENT_DURATION_MINUTES > 0 then
              ((countType (stationEvents db st.station_id s e) EventType.working : ℚ) *
                  EVENT_DURATION_MINUTES +
                (countType (stationEvents db st.station_id s e) EventType.idle : ℚ) *
                  EVENT_DURATION_MINUTES) / 60 else 0)
          else 0)) ∧
    (∀ (db : Db) (s e : Option Int),
      (compute_factory_metrics db s e).total_productive_time_minutes =
        round2 ((countType (windowEvents db s e) EventType.working : ℚ) *
          EVENT_DURATION_MINUTES) ∧
      (compute_factory_metrics db s e).total_idle_time_minutes =
        round2 ((countType (windowEvents db s e) EventType.idle : ℚ) *
          EVENT_DURATION_MINUTES) ∧
      (compute_factory_metrics db s e).average_production_rate =
        round2 (if (if (countType (windowEvents db s e) EventType.working : ℚ) *
              EVENT_DURATION_MINUTES > 0 then
            (countType (windowEvents db s e) EventType.working : ℚ) *
              EVENT_DURATION_MINUTES / 60 else 0) > 0 then
          (totalUnits (windowEvents db s e) : ℚ) /
            (if (countType (windowEvents db s e) EventType.working : ℚ) *
                EVENT_DURATION_MINUTES > 0 then
              (countType (windowEvents db s e) EventType.working : ℚ) *
                EVENT_DURATION_MINUTES / 60 else 0)
          else 0) ∧
      (compute_factory_metrics db s e).average_worker_utilization =
        round2 (if (db.workers.filter
            (fun w => !(workerEvents db w.worker_id s e).isEmpty)).isEmpty then 0
          else ((db.workers.filter
              (fun w => !(workerEvents db w.worker_id s e).isEmpty)).map
            (fun w => round2 (rawWorkerUtilization db w s e))).sum /
            (db.workers.filter
              (fun w => !(workerEvents db w.worker_id s e).isEmpty)).length) ∧
      (compute_factory_metrics db s e).average_workstation_utilization =
        round2 (if (db.workstations.filter
            (fun st => !(stationEvents db st.station_id s e).isEmpty)).isEmpty then 0
          else ((db.workstations.filter
              (fun st => !(stationEvents db st.station_id s e).isEmpty)).map
            (fun st => round2 (rawStationUtilization db st s e))).sum /
            (db.workstations.filter
              (fun st => !(stationEvents db st.station_id s e).isEmpty)).length)) := by
  refine ⟨fun db w s e => ⟨rfl, rfl, rfl, rfl, rfl⟩,
    fun db st s e => ⟨rfl, rfl, rfl, rfl, rfl⟩,
    fun db s e => ⟨rfl, rfl, rfl, ?_, ?_⟩⟩
  · rw [factory_avg_worker_eq, active_worker_metrics]
    rw [List.map_map, List.length_map]
    rw [isEmpty_map_eq]
    rfl
  · rw [factory_avg_station_eq, active_station_metrics]
    rw [List.map_map, List.length_map]
    rw [isEmpty_map_eq]
    rfl

end Dashboard
